import Mathlib

/-!
Verification of the desmoslang compiler core
(src/desmos_lang/src/compiler/compiler.rs) against its natural-language
specification.  The Rust code is shallowly embedded: the mutable
Context threaded by reference through every compile function becomes an
explicit state value returned next to the result, and Rust panics
(unimplemented!/unreachable!/unwrap) become an explicit `panic`
outcome distinct from user-facing compile errors.
-/

set_option maxHeartbeats 1000000

namespace Desmos

/-- Source spans are opaque diagnostic tokens (spec section 3); modelled as
naturals so that distinct spans can be told apart. -/
abbrev Span := Nat

/-- ArgCount from core/runtime: argument counts are machine sizes. -/
abbrev ArgCount := Nat

/-- ValType from core/runtime (spec section 3): the two-member type system. -/
inductive ValType where
  | Number
  | List
deriving DecidableEq, Repr

/-- BinaryOperator from core/ast.rs. -/
inductive BinaryOperator where
  | Add
  | Subtract
  | Multiply
  | Divide
  | Mod
deriving DecidableEq, Repr

/-- UnaryOperator from core/ast.rs. -/
inductive UnaryOperator where
  | Factorial
deriving DecidableEq, Repr

/-- CompareOperator from core/latex.rs. -/
inductive CompareOperator where
  | Equal
  | GreaterThan
  | LessThan
  | GreaterThanEqual
  | LessThanEqual
deriving DecidableEq, Repr

/-- CallModifier from core/ast.rs. -/
inductive CallModifier where
  | MapCall
  | NormalCall
deriving DecidableEq, Repr

/-- CompileErrorKind from compiler/error.rs: the eight user-facing error kinds. -/
inductive CompileErrorKind where
  | UnknownFunction (name : String)
  | WrongArgCount (got expected : ArgCount)
  | TypeMismatch (got expected : ValType)
  | UndefinedVariable (name : String)
  | UndefinedMacro (name : String)
  | BadMapMacro
  | ExpectedFunction
  | NoNestedList
deriving DecidableEq, Repr

/-- CompileError from compiler/error.rs: an error kind plus the offending span. -/
structure CompileError where
  kind : CompileErrorKind
  span : Span
deriving DecidableEq, Repr

/-- LatexBinaryOperator from core/latex.rs (no Mod: it is lowered away). -/
inductive LatexBinaryOperator where
  | Add
  | Subtract
  | Multiply
  | Divide
deriving DecidableEq, Repr

/-- LatexUnaryOperator from core/latex.rs. -/
inductive LatexUnaryOperator where
  | Factorial
deriving DecidableEq, Repr

mutual
/-- Latex from core/latex.rs: the untyped render-ready output tree. -/
inductive Latex : Type where
  | Variable (s : String)
  | Num (s : String)
  | Call (func : String) (is_builtin : Bool) (args : List Latex)
  | BinaryExpression (left : Latex) (operator : LatexBinaryOperator) (right : Latex)
  | UnaryExpression (left : Latex) (operator : LatexUnaryOperator)
  | List (items : List Latex)
  | Assignment (lhs : Latex) (rhs : Latex)
  | FuncDef (name : String) (args : List String) (body : Latex)
  | Piecewise (first : Cond) (rest : List Cond) (default : Latex)
/-- Cond from core/latex.rs: one rendered piecewise clause. -/
inductive Cond : Type where
  | mk (left : Latex) (op : CompareOperator) (right : Latex) (result : Latex)
end

/-- Left side of a Cond. -/
def Cond.left : Cond → Latex
  | .mk l _ _ _ => l

/-- Comparison operator of a Cond. -/
def Cond.op : Cond → CompareOperator
  | .mk _ o _ _ => o

/-- Right side of a Cond. -/
def Cond.right : Cond → Latex
  | .mk _ _ r _ => r

/-- Result expression of a Cond. -/
def Cond.result : Cond → Latex
  | .mk _ _ _ r => r

mutual
/-- Expression from core/ast.rs; every child carries its span
(LocatedExpression = (Span, Expression)). -/
inductive Expression : Type where
  | Num (val : String)
  | Variable (val : String)
  | BinaryExpr (left : Span × Expression) (operator : BinaryOperator)
      (right : Span × Expression)
  | UnaryExpr (val : Span × Expression) (operator : UnaryOperator)
  | Call (modifier : CallModifier) (func : String) (args : List (Span × Expression))
  | List (values : List (Span × Expression))
  | Piecewise (first : Branch) (rest : List Branch) (default : Span × Expression)
  | MapExpression (e : Span × Expression)
/-- Branch from core/ast.rs: one piecewise branch. -/
inductive Branch : Type where
  | mk (cond_left : Span × Expression) (cond : CompareOperator)
      (cond_right : Span × Expression) (val : Span × Expression)
end

/-- LocatedExpression from core/ast.rs. -/
abbrev LocatedExpression := Span × Expression

/-- Left comparison operand of a Branch. -/
def Branch.cond_left : Branch → LocatedExpression
  | .mk l _ _ _ => l

/-- Comparison operator of a Branch. -/
def Branch.cond : Branch → CompareOperator
  | .mk _ c _ _ => c

/-- Right comparison operand of a Branch. -/
def Branch.cond_right : Branch → LocatedExpression
  | .mk _ _ r _ => r

/-- Result expression of a Branch. -/
def Branch.val : Branch → LocatedExpression
  | .mk _ _ _ v => v

/-- FunctionDefinition from core/ast.rs.  The Rust field named
ret_annotation is shortened to ret_ann here. -/
structure FunctionDefinition where
  name : String
  args : List (String × ValType)
  ret_ann : Option ValType
deriving Repr

/-- Statement from core/ast.rs. -/
inductive Statement : Type where
  | FuncDef (fdef : FunctionDefinition) (e : LocatedExpression)
  | Expression (e : Expression)

/-- LocatedStatement from core/ast.rs. -/
abbrev LocatedStatement := Span × Statement

/-- FunctionSignature from compiler.rs: ordered parameter types plus return type. -/
structure FunctionSignature where
  args : List ValType
  ret : ValType
deriving DecidableEq, Repr

/-- HashMap with string keys, modelled as an association list whose lookup takes
the most recent insertion; insert removes any previous binding of the key
(HashMap insert overwrites). -/
abbrev StrMap (α : Type) := List (String × α)

/-- HashMap.insert: overwrite any existing binding for the key. -/
def StrMap.insert (m : StrMap α) (k : String) (v : α) : StrMap α :=
  (k, v) :: m.filter (fun p => p.1 != k)

/-- HashMap.get: the binding for the key, if any. -/
def StrMap.get (m : StrMap α) (k : String) : Option α :=
  List.lookup k m

/-- Context from compiler.rs: the mutable compile-time state.  The Rust field
named variables is called vars here because variables is a reserved word, and
the Rust field named inside_map_macro is called macro_mode (the spec calls it
the macro-mode flag). -/
structure Context where
  vars : StrMap ValType
  locals : StrMap ValType
  defined_functions : StrMap FunctionSignature
  macro_mode : Bool

/-- Context::new. -/
def Context.new : Context :=
  { vars := [], locals := [], defined_functions := [], macro_mode := false }

/-- Modelled from the spec: the static builtin table (the builtins module is not
part of the compiler core source).  Spec section 6: the table must supply
standard unary/binary math functions and a 2-argument function named mod.
A representative concrete table with those properties. -/
def BUILTIN_FUNCTIONS : StrMap FunctionSignature :=
  [("sin", ⟨[ValType.Number], ValType.Number⟩),
   ("cos", ⟨[ValType.Number], ValType.Number⟩),
   ("tan", ⟨[ValType.Number], ValType.Number⟩),
   ("pow", ⟨[ValType.Number, ValType.Number], ValType.Number⟩),
   ("mod", ⟨[ValType.Number, ValType.Number], ValType.Number⟩)]

/-- Outcome of one compile step: a value, a user-facing CompileError, or a Rust
panic (unimplemented!/unreachable!/unwrap on the two reserved variants). -/
inductive CompileResult (α : Type) where
  | ok (val : α)
  | err (e : CompileError)
  | panic
deriving Repr

/-- resolve_function from compiler.rs: user-defined functions first, then the
static builtin table (materializing a signature tagged builtin). -/
def resolve_function (ctx : Context) (func : String) :
    Option (FunctionSignature × Bool) :=
  match ctx.defined_functions.get func with
  | none =>
    match BUILTIN_FUNCTIONS.get func with
    | none => none
    | some f => some (⟨f.args, f.ret⟩, true)
  | some f => some (f, false)

/-- resolve_variable from compiler.rs: the global map first, falling back to
locals. -/
def resolve_variable (ctx : Context) (var : String) : Option ValType :=
  match ctx.vars.get var with
  | some r => some r
  | none => ctx.locals.get var

/-- Argument type-checking loop inside compile_call: walk the expected
parameter types zipped with the supplied (span, latex, type) arguments; a
List argument is accepted where Number is expected when macro_mode is
set; any other mismatch errors at the argument's own span.  The two lists
have equal length at every call site (checked first), so the unwrap on the
argument iterator is modelled as a panic on the impossible shape. -/
def check_args (macro_mode : Bool) :
    List ValType → List (Span × Latex × ValType) → CompileResult (List Latex)
  | [], _ => .ok []
  | _ :: _, [] => .panic
  | expect_type :: es, (aspan, arg_latex, got_type) :: rest =>
    if ¬(macro_mode = true ∧ got_type = ValType.List ∧
          expect_type = ValType.Number) ∧ got_type ≠ expect_type then
      .err ⟨.TypeMismatch got_type expect_type, aspan⟩
    else
      match check_args macro_mode es rest with
      | .ok tail => .ok (arg_latex :: tail)
      | .err e => .err e
      | .panic => .panic

/-- compile_call from compiler.rs: resolve the callee, check arity at the
call's span, check argument types positionally, emit the Call node with the
signature's declared return type. -/
def compile_call (ctx : Context) (span : Span) (fname : String)
    (args : List (Span × Latex × ValType)) :
    Context × CompileResult (Latex × ValType) :=
  match resolve_function ctx fname with
  | none => (ctx, .err ⟨.UnknownFunction fname, span⟩)
  | some (func, is_builtin) =>
    let got := args.length
    let expect := func.args.length
    if got ≠ expect then
      (ctx, .err ⟨.WrongArgCount got expect, span⟩)
    else
      match check_args ctx.macro_mode func.args args with
      | .err e => (ctx, .err e)
      | .panic => (ctx, .panic)
      | .ok args_latex => (ctx, .ok (.Call fname is_builtin args_latex, func.ret))

/-- check_type from compiler.rs. -/
def check_type (span : Span) (got expect : ValType) : CompileResult Unit :=
  if got ≠ expect then
    .err ⟨.TypeMismatch got expect, span⟩
  else
    .ok ()

/-- binop_to_latex from compiler.rs; the Mod arm is unreachable! in the
source, modelled as none. -/
def binop_to_latex : BinaryOperator → Option LatexBinaryOperator
  | .Add => some .Add
  | .Subtract => some .Subtract
  | .Multiply => some .Multiply
  | .Divide => some .Divide
  | .Mod => none

/-- unop_to_latex from compiler.rs. -/
def unop_to_latex : UnaryOperator → LatexUnaryOperator
  | .Factorial => .Factorial

mutual

/-- compile_expr from compiler.rs: recursive descent over a located
expression, producing (output node, inferred type), threading the context. -/
def compile_expr (ctx : Context) (expr : LocatedExpression) :
    Context × CompileResult (Latex × ValType) :=
  match expr with
  | (_, Expression.Num val) => (ctx, .ok (.Num val, ValType.Number))
  | (span, Expression.Variable val) =>
    match resolve_variable ctx val with
    | some var_type => (ctx, .ok (.Variable val, var_type))
    | none => (ctx, .err ⟨.UndefinedVariable val, span⟩)
  | (span, Expression.BinaryExpr left operator right) =>
    match compile_expect ctx span left ValType.Number with
    | (ctx1, .err e) => (ctx1, .err e)
    | (ctx1, .panic) => (ctx1, .panic)
    | (ctx1, .ok lv) =>
      match compile_expect ctx1 span right ValType.Number with
      | (ctx2, .err e) => (ctx2, .err e)
      | (ctx2, .panic) => (ctx2, .panic)
      | (ctx2, .ok rv) =>
        match operator with
        | .Mod => (ctx2, .ok (.Call "mod" true [lv, rv], ValType.Number))
        | op =>
          match binop_to_latex op with
          | none => (ctx2, .panic)
          | some lop => (ctx2, .ok (.BinaryExpression lv lop rv, ValType.Number))
  | (span, Expression.UnaryExpr v op) =>
    match compile_expect ctx span v ValType.Number with
    | (ctx1, .err e) => (ctx1, .err e)
    | (ctx1, .panic) => (ctx1, .panic)
    | (ctx1, .ok lv) =>
      (ctx1, .ok (.UnaryExpression lv (unop_to_latex op), ValType.Number))
  | (span, Expression.Call modifier func args) =>
    match modifier with
    | .NormalCall =>
      match compile_args ctx args with
      | (ctx1, .err e) => (ctx1, .err e)
      | (ctx1, .panic) => (ctx1, .panic)
      | (ctx1, .ok compiled_args) => compile_call ctx1 span func compiled_args
    | .MapCall => (ctx, .panic)
  | (_, Expression.List values) =>
    match compile_list_items ctx values with
    | (ctx1, .err e) => (ctx1, .err e)
    | (ctx1, .panic) => (ctx1, .panic)
    | (ctx1, .ok items) => (ctx1, .ok (.List items, ValType.List))
  | (_, Expression.Piecewise first rest default) =>
    match branch_to_cond ctx first with
    | (ctx1, .err e) => (ctx1, .err e)
    | (ctx1, .panic) => (ctx1, .panic)
    | (ctx1, .ok fc) =>
      match compile_branches ctx1 rest with
      | (ctx2, .err e) => (ctx2, .err e)
      | (ctx2, .panic) => (ctx2, .panic)
      | (ctx2, .ok rcs) =>
        match compile_expect ctx2 default.1 default ValType.Number with
        | (ctx3, .err e) => (ctx3, .err e)
        | (ctx3, .panic) => (ctx3, .panic)
        | (ctx3, .ok dl) => (ctx3, .ok (.Piecewise fc rcs dl, ValType.Number))
  | (_, Expression.MapExpression _) => (ctx, .panic)
termination_by sizeOf expr

/-- compile_expect from compiler.rs: compile_expr then check_type at the
given span. -/
def compile_expect (ctx : Context) (span : Span) (expr : LocatedExpression)
    (expect : ValType) : Context × CompileResult Latex :=
  match compile_expr ctx expr with
  | (ctx1, .err e) => (ctx1, .err e)
  | (ctx1, .panic) => (ctx1, .panic)
  | (ctx1, .ok (s, t)) =>
    match check_type span t expect with
    | .err e => (ctx1, .err e)
    | .panic => (ctx1, .panic)
    | .ok _ => (ctx1, .ok s)
termination_by 1 + sizeOf expr

/-- branch_to_cond from compiler.rs: the left comparison operand is checked
against Number at its own span; the right operand and the branch result are
compiled with no type constraint. -/
def branch_to_cond (ctx : Context) (branch : Branch) :
    Context × CompileResult Cond :=
  match branch with
  | Branch.mk cl cnd cr v =>
    match compile_expect ctx cl.1 cl ValType.Number with
    | (ctx1, .err e) => (ctx1, .err e)
    | (ctx1, .panic) => (ctx1, .panic)
    | (ctx1, .ok l) =>
      match compile_expr ctx1 cr with
      | (ctx2, .err e) => (ctx2, .err e)
      | (ctx2, .panic) => (ctx2, .panic)
      | (ctx2, .ok (r, _)) =>
        match compile_expr ctx2 v with
        | (ctx3, .err e) => (ctx3, .err e)
        | (ctx3, .panic) => (ctx3, .panic)
        | (ctx3, .ok (res, _)) => (ctx3, .ok (Cond.mk l cnd r res))
termination_by 1 + sizeOf branch

/-- Argument-compilation loop shared by the normal-call arm of compile_expr
and by handle_map_macro_expand: compile each argument left to right, pairing it
with its span and inferred type, stopping at the first error. -/
def compile_args (ctx : Context) (args : List LocatedExpression) :
    Context × CompileResult (List (Span × Latex × ValType)) :=
  match args with
  | [] => (ctx, .ok [])
  | (s, e) :: rest =>
    match compile_expr ctx (s, e) with
    | (ctx1, .err er) => (ctx1, .err er)
    | (ctx1, .panic) => (ctx1, .panic)
    | (ctx1, .ok (latex, t)) =>
      match compile_args ctx1 rest with
      | (ctx2, .err er) => (ctx2, .err er)
      | (ctx2, .panic) => (ctx2, .panic)
      | (ctx2, .ok tail) => (ctx2, .ok ((s, latex, t) :: tail))
termination_by sizeOf args

/-- List-element loop of compile_expr: every element must type to Number,
else NoNestedList at that element's span; order preserved. -/
def compile_list_items (ctx : Context) (values : List LocatedExpression) :
    Context × CompileResult (List Latex) :=
  match values with
  | [] => (ctx, .ok [])
  | (s, e) :: rest =>
    match compile_expr ctx (s, e) with
    | (ctx1, .err er) => (ctx1, .err er)
    | (ctx1, .panic) => (ctx1, .panic)
    | (ctx1, .ok (latex, vtype)) =>
      if vtype ≠ ValType.Number then
        (ctx1, .err ⟨.NoNestedList, s⟩)
      else
        match compile_list_items ctx1 rest with
        | (ctx2, .err er) => (ctx2, .err er)
        | (ctx2, .panic) => (ctx2, .panic)
        | (ctx2, .ok tail) => (ctx2, .ok (latex :: tail))
termination_by sizeOf values

/-- Rest-branch loop of the Piecewise arm of compile_expr: branch_to_cond on
each branch in order, stopping at the first error. -/
def compile_branches (ctx : Context) (bs : List Branch) :
    Context × CompileResult (List Cond) :=
  match bs with
  | [] => (ctx, .ok [])
  | b :: rest =>
    match branch_to_cond ctx b with
    | (ctx1, .err er) => (ctx1, .err er)
    | (ctx1, .panic) => (ctx1, .panic)
    | (ctx1, .ok c) =>
      match compile_branches ctx1 rest with
      | (ctx2, .err er) => (ctx2, .err er)
      | (ctx2, .panic) => (ctx2, .panic)
      | (ctx2, .ok tail) => (ctx2, .ok (c :: tail))
termination_by 1 + sizeOf bs

end

/-- handle_map_macro from compiler.rs (named handle_map_macro_expand here):
needs at least two arguments; the
first must be syntactically a bare variable reference naming the callee; the
remaining arguments compile normally; the macro_mode flag is saved, set
for the inner compile_call, and restored afterwards on every path. -/
def handle_map_macro_expand (ctx : Context) (span : Span)
    (args : List LocatedExpression) : Context × CompileResult (Latex × ValType) :=
  if args.length < 2 then
    (ctx, .err ⟨.BadMapMacro, span⟩)
  else
    match args with
    | [] => (ctx, .panic)
    | (fspan, fexpr) :: rest =>
      match fexpr with
      | Expression.Variable fname =>
        match compile_args ctx rest with
        | (ctx1, .err e) => (ctx1, .err e)
        | (ctx1, .panic) => (ctx1, .panic)
        | (ctx1, .ok call_args) =>
          let saved_macro_mode := ctx1.macro_mode
          let ctx2 : Context := { ctx1 with macro_mode := true }
          match compile_call ctx2 span fname call_args with
          | (ctx3, r) =>
            ({ ctx3 with macro_mode := saved_macro_mode }, r)
      | _ => (ctx, .err ⟨.ExpectedFunction, fspan⟩)

/-- handle_macro from compiler.rs (named handle_macro_dispatch here):
dispatch by name; only map is recognized. -/
def handle_macro_dispatch (ctx : Context) (span : Span) (name : String)
    (args : List LocatedExpression) : Context × CompileResult (Latex × ValType) :=
  match name with
  | "map" => handle_map_macro_expand ctx span args
  | _ => (ctx, .err ⟨.UndefinedMacro name, span⟩)

/-- compile_stmt from compiler.rs.  For a function definition: snapshot the
locals, insert the parameters, compile the body, check the return annotation,
restore the locals, register the signature (with the inferred return type),
and emit the FuncDef node.  On an error the question-mark operator in the
source returns before the locals are restored. -/
def compile_stmt (ctx : Context) (stmt : LocatedStatement) :
    Context × CompileResult Latex :=
  match stmt with
  | (s, Statement.Expression e) =>
    match compile_expr ctx (s, e) with
    | (ctx1, .err er) => (ctx1, .err er)
    | (ctx1, .panic) => (ctx1, .panic)
    | (ctx1, .ok (l, _)) => (ctx1, .ok l)
  | (_, Statement.FuncDef fdef e) =>
    let old_locals := ctx.locals
    let ctx0 : Context :=
      { ctx with
        locals := fdef.args.foldl (fun m p => StrMap.insert m p.1 p.2) ctx.locals }
    let span := e.1
    match compile_expr ctx0 e with
    | (ctx1, .err er) => (ctx1, .err er)
    | (ctx1, .panic) => (ctx1, .panic)
    | (ctx1, .ok (body, ret)) =>
      match (match fdef.ret_ann with
             | some retann => check_type span ret retann
             | none => .ok ()) with
      | .err er => (ctx1, .err er)
      | .panic => (ctx1, .panic)
      | .ok _ =>
        let ctx2 : Context := { ctx1 with locals := old_locals }
        let ctx3 : Context :=
          { ctx2 with
            defined_functions :=
              StrMap.insert ctx2.defined_functions fdef.name
                ⟨fdef.args.map (fun a => a.2), ret⟩ }
        (ctx3, .ok (.FuncDef fdef.name (fdef.args.map (fun a => a.1)) body))

/-!
Helper lemmas.  The compile functions thread the context through every call;
the following lemmas record which of them return it unchanged.
-/

/-- compile_call performs no context mutation: the returned context is the
argument context on every path. -/
theorem compile_call_fst (ctx : Context) (span : Span) (fname : String)
    (args : List (Span × Latex × ValType)) :
    (compile_call ctx span fname args).1 = ctx := by
  unfold compile_call
  split
  · rfl
  · dsimp only
    split
    · rfl
    · split <;> rfl

/-- Joint statement over the six mutually recursive expression-compilation
functions: each returns the context it was given, on success, error and
panic alike. -/
theorem compile_all_fst :
    (∀ ctx e, (compile_expr ctx e).1 = ctx) ∧
    (∀ ctx bs, (compile_branches ctx bs).1 = ctx) ∧
    (∀ ctx b, (branch_to_cond ctx b).1 = ctx) ∧
    (∀ ctx sp e t, (compile_expect ctx sp e t).1 = ctx) ∧
    (∀ ctx l, (compile_list_items ctx l).1 = ctx) ∧
    (∀ ctx l, (compile_args ctx l).1 = ctx) := by
  apply compile_expr.mutual_induct <;> intros <;>
    simp_all [compile_expr, compile_branches, branch_to_cond, compile_expect,
      compile_args, compile_list_items, compile_call_fst]

/-- compile_expr returns the context unchanged. -/
theorem compile_expr_fst (ctx : Context) (e : LocatedExpression) :
    (compile_expr ctx e).1 = ctx :=
  compile_all_fst.1 ctx e

/-- compile_expect returns the context unchanged. -/
theorem compile_expect_fst (ctx : Context) (sp : Span) (e : LocatedExpression)
    (t : ValType) : (compile_expect ctx sp e t).1 = ctx :=
  compile_all_fst.2.2.2.1 ctx sp e t

/-- branch_to_cond returns the context unchanged. -/
theorem branch_to_cond_fst (ctx : Context) (b : Branch) :
    (branch_to_cond ctx b).1 = ctx :=
  compile_all_fst.2.2.1 ctx b

/-- compile_branches returns the context unchanged. -/
theorem compile_branches_fst (ctx : Context) (bs : List Branch) :
    (compile_branches ctx bs).1 = ctx :=
  compile_all_fst.2.1 ctx bs

/-- compile_list_items returns the context unchanged. -/
theorem compile_list_items_fst (ctx : Context) (l : List LocatedExpression) :
    (compile_list_items ctx l).1 = ctx :=
  compile_all_fst.2.2.2.2.1 ctx l

/-- compile_args returns the context unchanged. -/
theorem compile_args_fst (ctx : Context) (l : List LocatedExpression) :
    (compile_args ctx l).1 = ctx :=
  compile_all_fst.2.2.2.2.2 ctx l

/-- handle_map_macro_expand returns the context unchanged on every path: the saved
macro_mode flag is restored even when the inner compile_call fails. -/
theorem handle_map_macro_expand_fst (ctx : Context) (span : Span)
    (args : List LocatedExpression) :
    (handle_map_macro_expand ctx span args).1 = ctx := by
  unfold handle_map_macro_expand
  split
  · rfl
  · rcases args with _ | ⟨⟨fspan, fexpr⟩, rest⟩
    · rfl
    · cases fexpr
      case Variable fname =>
        dsimp only
        rcases hc : compile_args ctx rest with ⟨ctx1, r⟩
        have h1 : ctx1 = ctx := by
          have h := compile_args_fst ctx rest
          rw [hc] at h
          exact h
        rcases r with v | e | _
        · simp [compile_call_fst, h1]
        · exact h1
        · exact h1
      all_goals rfl

/-- handle_macro_dispatch returns the context unchanged on every path. -/
theorem handle_macro_dispatch_fst (ctx : Context) (span : Span) (name : String)
    (args : List LocatedExpression) :
    (handle_macro_dispatch ctx span name args).1 = ctx := by
  unfold handle_macro_dispatch
  split
  · exact handle_map_macro_expand_fst ctx span args
  · rfl

/-- compile_stmt on a bare-expression statement returns the context
unchanged. -/
theorem compile_stmt_expression_fst (ctx : Context) (s : Span) (e : Expression) :
    (compile_stmt ctx (s, Statement.Expression e)).1 = ctx := by
  unfold compile_stmt
  dsimp only
  rcases hc : compile_expr ctx (s, e) with ⟨ctx1, r⟩
  have h1 : ctx1 = ctx := by
    have h := compile_expr_fst ctx (s, e)
    rw [hc] at h
    exact h
  rcases r with ⟨l, t⟩ | er | _ <;> simpa using h1

/-- Successful branch_to_cond passes the branch's comparator through
unchanged into the produced Cond. -/
theorem branch_to_cond_op (ctx : Context) (b : Branch) (ctx1 : Context) (c : Cond)
    (h : branch_to_cond ctx b = (ctx1, .ok c)) : c.op = b.cond := by
  rcases b with ⟨cl, cnd, cr, v⟩
  unfold branch_to_cond at h
  split at h <;> try (simp at h)
  split at h <;> try (simp at h)
  split at h <;> try (simp at h)
  obtain ⟨-, h2⟩ := h
  rw [← h2]
  rfl

/-- Successful compile_branches preserves the branch comparators in order. -/
theorem compile_branches_ops : ∀ (bs : List Branch) (ctx ctx2 : Context)
    (cs : List Cond),
    compile_branches ctx bs = (ctx2, .ok cs) →
    cs.map Cond.op = bs.map Branch.cond := by
  intro bs
  induction bs with
  | nil =>
    intro ctx ctx2 cs h
    unfold compile_branches at h
    rw [Prod.mk.injEq] at h
    obtain ⟨-, h2⟩ := h
    injection h2 with h3
    rw [← h3]
    rfl
  | cons b rest ih =>
    intro ctx ctx2 cs h
    unfold compile_branches at h
    split at h <;> try (simp at h)
    split at h <;> try (simp at h)
    rename_i x1 ctx1 c heq1 x2 ctxr tail heq2
    obtain ⟨-, h2⟩ := h
    rw [← h2]
    simp only [List.map_cons]
    rw [branch_to_cond_op ctx b ctx1 c heq1, ih ctx1 ctxr tail heq2]

/-- The argument loop of compile_call accepts a list of arguments whose types
match the expected parameter types positionally, up to the List-for-Number
relaxation when the macro-mode flag is set, and returns their latex parts. -/
theorem check_args_accepts (macro_mode : Bool) :
    ∀ (es : List ValType) (gargs : List (Span × Latex × ValType)),
    List.Forall₂ (fun ex (g : Span × Latex × ValType) =>
      g.2.2 = ex ∨ (macro_mode = true ∧ g.2.2 = ValType.List ∧
        ex = ValType.Number)) es gargs →
    check_args macro_mode es gargs = .ok (gargs.map (fun g => g.2.1)) := by
  intro es gargs h
  induction h with
  | nil => rfl
  | cons hrel hrest ih =>
    rename_i ex g es2 gs2
    obtain ⟨aspan, al, gt⟩ := g
    unfold check_args
    have hcond : ¬(¬(macro_mode = true ∧ gt = ValType.List ∧
        ex = ValType.Number) ∧ gt ≠ ex) := by
      simp only at hrel
      tauto
    rw [if_neg hcond, ih]
    rfl

/-- The argument loop of compile_call rejects at the first argument whose
type neither equals the expected type nor falls under the List-for-Number
relaxation, reporting TypeMismatch at that argument's own span. -/
theorem check_args_rejects (macro_mode : Bool) :
    ∀ (epre : List ValType) (gpre : List (Span × Latex × ValType)),
    List.Forall₂ (fun ex (g : Span × Latex × ValType) =>
      g.2.2 = ex ∨ (macro_mode = true ∧ g.2.2 = ValType.List ∧
        ex = ValType.Number)) epre gpre →
    ∀ (ex : ValType) (es : List ValType) (aspan : Span) (al : Latex)
      (gt : ValType) (gs : List (Span × Latex × ValType)),
    ¬(macro_mode = true ∧ gt = ValType.List ∧ ex = ValType.Number) → gt ≠ ex →
    check_args macro_mode (epre ++ ex :: es) (gpre ++ (aspan, al, gt) :: gs)
      = .err ⟨.TypeMismatch gt ex, aspan⟩ := by
  intro epre gpre h
  induction h with
  | nil =>
    intro ex es aspan al gt gs hrelax hne
    simp only [List.nil_append]
    unfold check_args
    rw [if_pos ⟨hrelax, hne⟩]
  | cons hrel hrest ih =>
    intro ex es aspan al gt gs hrelax hne
    rename_i ex2 g es2 gs2
    obtain ⟨s2, l2, t2⟩ := g
    simp only [List.cons_append]
    unfold check_args
    have hcond : ¬(¬(macro_mode = true ∧ t2 = ValType.List ∧
        ex2 = ValType.Number) ∧ t2 ≠ ex2) := by
      simp only at hrel
      tauto
    rw [if_neg hcond, ih ex es aspan al gt gs hrelax hne]

/-!
Claim theorems.
-/

/-- C1 counterexample: a function definition whose body fails to compile
returns its error with the parameter still in the locals map — the source
returns through the question-mark operator before restoring the snapshot, so
on the error path the locals map does not equal its value before the
statement. -/
theorem c1_locals_error_path_counterexample :
    (compile_stmt Context.new
        (0, Statement.FuncDef ⟨"f", [("a", ValType.Number)], none⟩
          (1, Expression.Variable "b"))).2
      = CompileResult.err ⟨.UndefinedVariable "b", 1⟩ ∧
    (compile_stmt Context.new
        (0, Statement.FuncDef ⟨"f", [("a", ValType.Number)], none⟩
          (1, Expression.Variable "b"))).1.locals
      ≠ Context.new.locals := by
  constructor <;>
    simp [compile_stmt, compile_expr, resolve_variable, Context.new,
      StrMap.insert, StrMap.get, List.lookup]

/-- C1 (amended): for every function-definition statement that compile_stmt
processes successfully, the locals map afterwards equals its value before
the statement — the inserted parameters are removed and shadowed entries
restored, so parameters never remain visible to later statements; on an
error the restoration is skipped. -/
theorem c1_funcdef_restores_locals_on_success (ctx : Context) (sp : Span)
    (fdef : FunctionDefinition) (e : LocatedExpression) (out : Context) (l : Latex)
    (h : compile_stmt ctx (sp, Statement.FuncDef fdef e) = (out, .ok l)) :
    out.locals = ctx.locals := by
  unfold compile_stmt at h
  dsimp only at h
  split at h
  · exact absurd h (by simp)
  · exact absurd h (by simp)
  · split at h
    · exact absurd h (by simp)
    · exact absurd h (by simp)
    · rw [Prod.mk.injEq] at h
      rw [← h.1]

/-- Witness for C1: a successful definition of f(a: Number) = a leaves the
locals map of the fresh context unchanged. -/
theorem c1_funcdef_restores_locals_on_success_witness :
    (compile_stmt Context.new
        (0, Statement.FuncDef ⟨"f", [("a", ValType.Number)], none⟩
          (1, Expression.Variable "a"))).1.locals = Context.new.locals := by
  apply c1_funcdef_restores_locals_on_success Context.new 0
    ⟨"f", [("a", ValType.Number)], none⟩ (1, Expression.Variable "a") _
    (Latex.FuncDef "f" ["a"] (Latex.Variable "a"))
  simp [compile_stmt, compile_expr, resolve_variable, Context.new,
    StrMap.insert, StrMap.get, List.lookup]

/-- C2 counterexample: adding a List literal (span 2) to a number inside a
binary expression at span 1 reports TypeMismatch at span 1 — the enclosing
binary expression's span — not at the failing operand's own span 2. -/
theorem c2_operand_span_counterexample :
    compile_expr Context.new
        (1, Expression.BinaryExpr (2, Expression.List [])
          BinaryOperator.Add (3, Expression.Num "2"))
      = (Context.new, .err ⟨.TypeMismatch ValType.List ValType.Number, 1⟩) ∧
    (1 : Span) ≠ 2 := by
  constructor
  · simp [compile_expr, compile_expect, compile_list_items, check_type,
      Context.new]
  · decide

/-- C2 (amended): for binary arithmetic, an operand that compiles to a
non-Number type makes compile_expr fail with TypeMismatch carrying the
enclosing binary expression's span (not the operand's own span); when both
operands type to Number the result type is Number. -/
theorem c2_binary_arith_typing :
    (∀ (ctx : Context) (sp : Span) (left : LocatedExpression)
       (op : BinaryOperator) (right : LocatedExpression)
       (ctx1 : Context) (lv : Latex) (t : ValType),
      compile_expr ctx left = (ctx1, .ok (lv, t)) → t ≠ ValType.Number →
      compile_expr ctx (sp, Expression.BinaryExpr left op right)
        = (ctx1, .err ⟨.TypeMismatch t ValType.Number, sp⟩)) ∧
    (∀ (ctx : Context) (sp : Span) (left : LocatedExpression)
       (op : BinaryOperator) (right : LocatedExpression)
       (ctx1 : Context) (lv : Latex) (ctx2 : Context) (rv : Latex) (t : ValType),
      compile_expr ctx left = (ctx1, .ok (lv, ValType.Number)) →
      compile_expr ctx1 right = (ctx2, .ok (rv, t)) → t ≠ ValType.Number →
      compile_expr ctx (sp, Expression.BinaryExpr left op right)
        = (ctx2, .err ⟨.TypeMismatch t ValType.Number, sp⟩)) ∧
    (∀ (ctx : Context) (sp : Span) (left : LocatedExpression)
       (op : BinaryOperator) (right : LocatedExpression)
       (ctx1 : Context) (lv : Latex) (ctx2 : Context) (rv : Latex),
      compile_expr ctx left = (ctx1, .ok (lv, ValType.Number)) →
      compile_expr ctx1 right = (ctx2, .ok (rv, ValType.Number)) →
      ∃ lat, compile_expr ctx (sp, Expression.BinaryExpr left op right)
        = (ctx2, .ok (lat, ValType.Number))) := by
  refine ⟨?_, ?_, ?_⟩
  · intro ctx sp left op right ctx1 lv t hl ht
    simp only [compile_expr, compile_expect]
    rw [hl]
    dsimp only
    rw [check_type, if_pos ht]
  · intro ctx sp left op right ctx1 lv ctx2 rv t hl hr ht
    have hle : compile_expect ctx sp left ValType.Number = (ctx1, .ok lv) := by
      unfold compile_expect
      rw [hl]
      simp [check_type]
    have hre : compile_expect ctx1 sp right ValType.Number
        = (ctx2, .err ⟨.TypeMismatch t ValType.Number, sp⟩) := by
      unfold compile_expect
      rw [hr]
      simp [check_type, ht]
    simp only [compile_expr]
    rw [hle]
    dsimp only
    rw [hre]
  · intro ctx sp left op right ctx1 lv ctx2 rv hl hr
    have hle : compile_expect ctx sp left ValType.Number = (ctx1, .ok lv) := by
      unfold compile_expect
      rw [hl]
      simp [check_type]
    have hre : compile_expect ctx1 sp right ValType.Number = (ctx2, .ok rv) := by
      unfold compile_expect
      rw [hr]
      simp [check_type]
    cases op <;>
      (simp only [compile_expr]
       rw [hle]
       dsimp only
       rw [hre]
       dsimp only [binop_to_latex]
       exact ⟨_, rfl⟩)

/-- Witness for C2: a List right operand at span 12 under a Subtract at span
10 errs at span 10, and multiplying two number literals types to Number. -/
theorem c2_binary_arith_typing_witness :
    compile_expr Context.new
        (10, Expression.BinaryExpr (11, Expression.Num "1") BinaryOperator.Subtract
          (12, Expression.List []))
      = (Context.new, .err ⟨.TypeMismatch ValType.List ValType.Number, 10⟩) ∧
    (∃ lat, compile_expr Context.new
        (13, Expression.BinaryExpr (14, Expression.Num "1") BinaryOperator.Multiply
          (15, Expression.Num "2"))
      = (Context.new, .ok (lat, ValType.Number))) :=
  ⟨c2_binary_arith_typing.2.1 Context.new 10 (11, Expression.Num "1")
      BinaryOperator.Subtract (12, Expression.List []) Context.new (Latex.Num "1")
      Context.new (Latex.List []) ValType.List
      (by simp [compile_expr]) (by simp [compile_expr, compile_list_items])
      (by decide),
   c2_binary_arith_typing.2.2 Context.new 13 (14, Expression.Num "1")
      BinaryOperator.Multiply (15, Expression.Num "2") Context.new (Latex.Num "1")
      Context.new (Latex.Num "2")
      (by simp [compile_expr]) (by simp [compile_expr])⟩

/-- C3: compile_call with the macro-mode flag set accepts a List argument in
a Number position and always returns the signature's declared return type;
any other positional mismatch — including Number where List is expected —
fails TypeMismatch at that argument's own span; with the flag clear the same
List-for-Number argument fails TypeMismatch with got List, expected Number. -/
theorem c3_map_macro_relaxed_typing :
    (∀ (ctx : Context) (sp : Span) (fname : String) (func : FunctionSignature)
       (bi : Bool) (cargs : List (Span × Latex × ValType)),
      resolve_function ctx fname = some (func, bi) →
      List.Forall₂ (fun ex (g : Span × Latex × ValType) =>
        g.2.2 = ex ∨ (ctx.macro_mode = true ∧ g.2.2 = ValType.List ∧
          ex = ValType.Number)) func.args cargs →
      compile_call ctx sp fname cargs
        = (ctx, .ok (.Call fname bi (cargs.map (fun g => g.2.1)), func.ret))) ∧
    (∀ (ctx : Context) (sp : Span) (fname : String) (func : FunctionSignature)
       (bi : Bool) (epre : List ValType) (gpre : List (Span × Latex × ValType))
       (ex : ValType) (es : List ValType) (aspan : Span) (al : Latex)
       (gt : ValType) (gs : List (Span × Latex × ValType)),
      resolve_function ctx fname = some (func, bi) →
      func.args = epre ++ ex :: es →
      List.Forall₂ (fun ex2 (g : Span × Latex × ValType) =>
        g.2.2 = ex2 ∨ (ctx.macro_mode = true ∧ g.2.2 = ValType.List ∧
          ex2 = ValType.Number)) epre gpre →
      es.length = gs.length →
      ¬(ctx.macro_mode = true ∧ gt = ValType.List ∧ ex = ValType.Number) →
      gt ≠ ex →
      compile_call ctx sp fname (gpre ++ (aspan, al, gt) :: gs)
        = (ctx, .err ⟨.TypeMismatch gt ex, aspan⟩)) ∧
    (∀ (ctx : Context) (sp : Span) (fname : String) (func : FunctionSignature)
       (bi : Bool) (epre : List ValType) (gpre : List (Span × Latex × ValType))
       (es : List ValType) (aspan : Span) (al : Latex)
       (gs : List (Span × Latex × ValType)),
      ctx.macro_mode = false →
      resolve_function ctx fname = some (func, bi) →
      func.args = epre ++ ValType.Number :: es →
      List.Forall₂ (fun ex2 (g : Span × Latex × ValType) =>
        g.2.2 = ex2) epre gpre →
      es.length = gs.length →
      compile_call ctx sp fname (gpre ++ (aspan, al, ValType.List) :: gs)
        = (ctx, .err ⟨.TypeMismatch ValType.List ValType.Number, aspan⟩)) := by
  refine ⟨?_, ?_, ?_⟩
  · intro ctx sp fname func bi cargs hres hfa
    unfold compile_call
    rw [hres]
    dsimp only
    rw [if_neg (by rw [hfa.length_eq]; exact fun h => h rfl)]
    rw [check_args_accepts ctx.macro_mode func.args cargs hfa]
  · intro ctx sp fname func bi epre gpre ex es aspan al gt gs hres hargs hfa hlen
      hrelax hne
    unfold compile_call
    rw [hres]
    dsimp only
    rw [hargs]
    rw [if_neg (by
      simp only [List.length_append, List.length_cons, hfa.length_eq, hlen]
      exact fun h => h rfl)]
    rw [check_args_rejects ctx.macro_mode epre gpre hfa ex es aspan al gt gs
      hrelax hne]
  · intro ctx sp fname func bi epre gpre es aspan al gs hflag hres hargs hfa hlen
    unfold compile_call
    rw [hres]
    dsimp only
    rw [hargs]
    have hfa2 : List.Forall₂ (fun ex2 (g : Span × Latex × ValType) =>
        g.2.2 = ex2 ∨ (ctx.macro_mode = true ∧ g.2.2 = ValType.List ∧
          ex2 = ValType.Number)) epre gpre := by
      refine hfa.imp ?_
      intro a b hab
      exact Or.inl hab
    rw [if_neg (by
      simp only [List.length_append, List.length_cons, hfa.length_eq, hlen]
      exact fun h => h rfl)]
    rw [check_args_rejects ctx.macro_mode epre gpre hfa2 ValType.Number es
      aspan al ValType.List gs (by simp [hflag]) (by decide)]

/-- Witness for C3: with the flag set, f expecting Number accepts a List
argument and keeps return type Number; g expecting List rejects a Number
argument at its span; with the flag clear, f rejects the same List argument
with got List, expected Number. -/
theorem c3_map_macro_relaxed_typing_witness :
    compile_call ⟨[], [], [("f", ⟨[ValType.Number], ValType.Number⟩)], true⟩ 49 "f"
        [(50, Latex.Variable "l", ValType.List)]
      = (⟨[], [], [("f", ⟨[ValType.Number], ValType.Number⟩)], true⟩,
         .ok (.Call "f" false [Latex.Variable "l"], ValType.Number)) ∧
    compile_call ⟨[], [], [("g", ⟨[ValType.List], ValType.Number⟩)], true⟩ 53 "g"
        [(51, Latex.Num "1", ValType.Number)]
      = (⟨[], [], [("g", ⟨[ValType.List], ValType.Number⟩)], true⟩,
         .err ⟨.TypeMismatch ValType.Number ValType.List, 51⟩) ∧
    compile_call ⟨[], [], [("f", ⟨[ValType.Number], ValType.Number⟩)], false⟩ 54 "f"
        [(52, Latex.Variable "l", ValType.List)]
      = (⟨[], [], [("f", ⟨[ValType.Number], ValType.Number⟩)], false⟩,
         .err ⟨.TypeMismatch ValType.List ValType.Number, 52⟩) :=
  ⟨c3_map_macro_relaxed_typing.1
      ⟨[], [], [("f", ⟨[ValType.Number], ValType.Number⟩)], true⟩ 49 "f"
      ⟨[ValType.Number], ValType.Number⟩ false [(50, Latex.Variable "l", ValType.List)]
      (by simp [resolve_function, StrMap.get, List.lookup])
      (List.Forall₂.cons (Or.inr ⟨rfl, rfl, rfl⟩) List.Forall₂.nil),
   c3_map_macro_relaxed_typing.2.1
      ⟨[], [], [("g", ⟨[ValType.List], ValType.Number⟩)], true⟩ 53 "g"
      ⟨[ValType.List], ValType.Number⟩ false [] [] ValType.List [] 51
      (Latex.Num "1") ValType.Number []
      (by simp [resolve_function, StrMap.get, List.lookup]) rfl
      List.Forall₂.nil rfl (by decide) (by decide),
   c3_map_macro_relaxed_typing.2.2
      ⟨[], [], [("f", ⟨[ValType.Number], ValType.Number⟩)], false⟩ 54 "f"
      ⟨[ValType.Number], ValType.Number⟩ false [] [] [] 52 (Latex.Variable "l") []
      rfl (by simp [resolve_function, StrMap.get, List.lookup]) rfl
      List.Forall₂.nil rfl⟩

/-- C4: a function definition whose name is neither already in
defined_functions nor in the builtin table cannot call itself from its own
body — the self-call fails UnknownFunction(name) at the call's span because
the signature is registered only after the body compiles; after a successful
definition the name resolves to a non-builtin signature with the declared
parameter types, so the function is callable from later statements. -/
theorem c4_no_self_recursion :
    (∀ (ctx : Context) (sp bsp : Span) (fdef : FunctionDefinition)
       (cargs : List LocatedExpression) (ctxa : Context)
       (cl : List (Span × Latex × ValType)),
      ctx.defined_functions.get fdef.name = none →
      BUILTIN_FUNCTIONS.get fdef.name = none →
      compile_args
          { ctx with
            locals := fdef.args.foldl (fun m p => StrMap.insert m p.1 p.2) ctx.locals }
          cargs = (ctxa, .ok cl) →
      (compile_stmt ctx (sp, Statement.FuncDef fdef
          (bsp, Expression.Call CallModifier.NormalCall fdef.name cargs))).2
        = .err ⟨.UnknownFunction fdef.name, bsp⟩) ∧
    (∀ (ctx : Context) (sp : Span) (fdef : FunctionDefinition)
       (e : LocatedExpression) (out : Context) (l : Latex),
      compile_stmt ctx (sp, Statement.FuncDef fdef e) = (out, .ok l) →
      ∃ sig, resolve_function out fdef.name = some (sig, false) ∧
        sig.args = fdef.args.map (fun a => a.2)) := by
  constructor
  · intro ctx sp bsp fdef cargs ctxa cl h1 h2 harg
    have hctxa : ctxa = { ctx with
        locals := fdef.args.foldl (fun m p => StrMap.insert m p.1 p.2) ctx.locals } := by
      have h := compile_args_fst { ctx with
        locals := fdef.args.foldl (fun m p => StrMap.insert m p.1 p.2) ctx.locals } cargs
      rw [harg] at h
      exact h
    have hbody : compile_expr
        { ctx with
          locals := fdef.args.foldl (fun m p => StrMap.insert m p.1 p.2) ctx.locals }
        (bsp, Expression.Call CallModifier.NormalCall fdef.name cargs)
        = (ctxa, .err ⟨.UnknownFunction fdef.name, bsp⟩) := by
      simp only [compile_expr]
      rw [harg]
      dsimp only
      unfold compile_call resolve_function
      rw [hctxa]
      dsimp only
      rw [show ({ ctx with
          locals := fdef.args.foldl (fun m p => StrMap.insert m p.1 p.2) ctx.locals }
          : Context).defined_functions.get fdef.name = none from h1, h2]
    unfold compile_stmt
    dsimp only
    rw [hbody]
  · intro ctx sp fdef e out l h
    unfold compile_stmt at h
    dsimp only at h
    split at h
    · exact absurd h (by simp)
    · exact absurd h (by simp)
    · split at h
      · exact absurd h (by simp)
      · exact absurd h (by simp)
      · rw [Prod.mk.injEq] at h
        rename_i x1 ctx1 body ret heq1 x2 val2 heq2
        refine ⟨⟨fdef.args.map (fun a => a.2), ret⟩, ?_, rfl⟩
        rw [← h.1]
        simp [resolve_function, StrMap.get, StrMap.insert, List.lookup]

/-- Witness for C4: f(a: Number) = f(a) fails UnknownFunction at the body
call's span, and after a successful definition of g the name g resolves to a
non-builtin one-Number-parameter signature. -/
theorem c4_no_self_recursion_witness :
    (compile_stmt Context.new
        (0, Statement.FuncDef ⟨"f", [("a", ValType.Number)], none⟩
          (1, Expression.Call CallModifier.NormalCall "f"
            [(2, Expression.Variable "a")]))).2
      = .err ⟨.UnknownFunction "f", 1⟩ ∧
    (∃ sig, resolve_function
        ⟨[], [], [("g", ⟨[ValType.Number], ValType.Number⟩)], false⟩ "g"
        = some (sig, false) ∧ sig.args = [ValType.Number]) :=
  ⟨c4_no_self_recursion.1 Context.new 0 1 ⟨"f", [("a", ValType.Number)], none⟩
      [(2, Expression.Variable "a")] ⟨[], [("a", ValType.Number)], [], false⟩
      [(2, Latex.Variable "a", ValType.Number)]
      (by simp [Context.new, StrMap.get, List.lookup])
      (by simp [BUILTIN_FUNCTIONS, StrMap.get, List.lookup])
      (by simp [compile_args, compile_expr, resolve_variable, Context.new,
        StrMap.get, StrMap.insert, List.lookup]),
   c4_no_self_recursion.2 Context.new 3 ⟨"g", [("b", ValType.Number)], none⟩
      (4, Expression.Variable "b")
      ⟨[], [], [("g", ⟨[ValType.Number], ValType.Number⟩)], false⟩
      (Latex.FuncDef "g" ["b"] (Latex.Variable "b"))
      (by simp [compile_stmt, compile_expr, resolve_variable, Context.new,
        StrMap.get, StrMap.insert, List.lookup])⟩

/-- C5: a variable name present in both the global variables map and the
locals map resolves to the type recorded in the globals map — globals take
priority over locals; a name present in neither map fails
UndefinedVariable(name) at the variable's span. -/
theorem c5_variable_resolution :
    (∀ (ctx : Context) (name : String) (tg tl : ValType) (sp : Span),
      ctx.vars.get name = some tg → ctx.locals.get name = some tl →
      compile_expr ctx (sp, Expression.Variable name)
        = (ctx, .ok (.Variable name, tg))) ∧
    (∀ (ctx : Context) (name : String) (sp : Span),
      ctx.vars.get name = none → ctx.locals.get name = none →
      compile_expr ctx (sp, Expression.Variable name)
        = (ctx, .err ⟨.UndefinedVariable name, sp⟩)) := by
  constructor
  · intro ctx name tg tl sp h1 h2
    simp [compile_expr, resolve_variable, h1]
  · intro ctx name sp h1 h2
    simp [compile_expr, resolve_variable, h1, h2]

/-- Witness for C5: with a global a : Number and a local a : List the
reference a types as Number, and an unknown b fails at its span. -/
theorem c5_variable_resolution_witness :
    compile_expr ⟨[("a", ValType.Number)], [("a", ValType.List)], [], false⟩
        (7, Expression.Variable "a")
      = (⟨[("a", ValType.Number)], [("a", ValType.List)], [], false⟩,
         .ok (.Variable "a", ValType.Number)) ∧
    compile_expr ⟨[("a", ValType.Number)], [("a", ValType.List)], [], false⟩
        (9, Expression.Variable "b")
      = (⟨[("a", ValType.Number)], [("a", ValType.List)], [], false⟩,
         .err ⟨.UndefinedVariable "b", 9⟩) :=
  ⟨c5_variable_resolution.1 _ "a" ValType.Number ValType.List 7
      (by simp [StrMap.get, List.lookup]) (by simp [StrMap.get, List.lookup]),
   c5_variable_resolution.2 _ "b" 9
      (by simp [StrMap.get, List.lookup]) (by simp [StrMap.get, List.lookup])⟩

/-- C6: when the callee resolves but the argument count differs from the
signature's parameter count, compile_call fails WrongArgCount carrying got
and expected counts at the call's span — for arguments of arbitrary types,
so the arity check precedes every per-argument type check and never cites an
argument's span. -/
theorem c6_wrong_arg_count (ctx : Context) (span : Span) (fname : String)
    (func : FunctionSignature) (bi : Bool) (cargs : List (Span × Latex × ValType))
    (hres : resolve_function ctx fname = some (func, bi))
    (hlen : cargs.length ≠ func.args.length) :
    compile_call ctx span fname cargs
      = (ctx, .err ⟨.WrongArgCount cargs.length func.args.length, span⟩) := by
  unfold compile_call
  rw [hres]
  simp [hlen]

/-- Witness for C6: calling the one-parameter builtin sin with no arguments
fails WrongArgCount 0 1 at the call's span. -/
theorem c6_wrong_arg_count_witness :
    compile_call Context.new 3 "sin" []
      = (Context.new, .err ⟨.WrongArgCount 0 1, 3⟩) :=
  c6_wrong_arg_count Context.new 3 "sin" ⟨[ValType.Number], ValType.Number⟩ true []
    (by simp [resolve_function, BUILTIN_FUNCTIONS, StrMap.get, List.lookup,
      Context.new])
    (by simp)

/-- C7: a successfully compiled piecewise expression is unconditionally
typed Number and its output Cond sequence carries the branch comparators
unchanged in the original order; a branch needs only its left comparison
operand to type as Number (failing TypeMismatch at the left operand's own
span) while the comparator right-hand side and the branch result compile
with no type constraint; the default is checked against Number at its
span. -/
theorem c7_piecewise :
    (∀ (ctx : Context) (sp : Span) (f : Branch) (r : List Branch)
       (d : LocatedExpression) (ctxo : Context) (lat : Latex) (t : ValType),
      compile_expr ctx (sp, Expression.Piecewise f r d) = (ctxo, .ok (lat, t)) →
      t = ValType.Number ∧ ∃ fc rcs dl, lat = .Piecewise fc rcs dl ∧
        fc.op = f.cond ∧ rcs.map Cond.op = r.map Branch.cond) ∧
    (∀ (ctx : Context) (b : Branch) (ctx1 : Context) (lv : Latex)
       (ctx2 : Context) (rv : Latex) (tr : ValType) (ctx3 : Context)
       (resv : Latex) (tres : ValType),
      compile_expect ctx b.cond_left.1 b.cond_left ValType.Number = (ctx1, .ok lv) →
      compile_expr ctx1 b.cond_right = (ctx2, .ok (rv, tr)) →
      compile_expr ctx2 b.val = (ctx3, .ok (resv, tres)) →
      branch_to_cond ctx b = (ctx3, .ok (Cond.mk lv b.cond rv resv))) ∧
    (∀ (ctx : Context) (b : Branch) (ctx1 : Context) (lv : Latex) (t : ValType),
      compile_expr ctx b.cond_left = (ctx1, .ok (lv, t)) → t ≠ ValType.Number →
      branch_to_cond ctx b
        = (ctx1, .err ⟨.TypeMismatch t ValType.Number, b.cond_left.1⟩)) ∧
    (∀ (ctx : Context) (sp : Span) (f : Branch) (r : List Branch)
       (d : LocatedExpression) (c1 : Context) (fc : Cond) (c2 : Context)
       (rcs : List Cond) (c3 : Context) (dl : Latex) (t : ValType),
      branch_to_cond ctx f = (c1, .ok fc) →
      compile_branches c1 r = (c2, .ok rcs) →
      compile_expr c2 d = (c3, .ok (dl, t)) → t ≠ ValType.Number →
      compile_expr ctx (sp, Expression.Piecewise f r d)
        = (c3, .err ⟨.TypeMismatch t ValType.Number, d.1⟩)) := by
  refine ⟨?_, ?_, ?_, ?_⟩
  · intro ctx sp f r d ctxo lat t h
    simp only [compile_expr] at h
    split at h <;> try (simp at h)
    split at h <;> try (simp at h)
    split at h <;> try (simp at h)
    rename_i x1 c1 fc heq1 x2 c2 rcs heq2 x3 c3 dl heq3
    obtain ⟨-, h2, h3⟩ := h
    refine ⟨h3.symm, fc, rcs, dl, h2.symm, ?_, ?_⟩
    · exact branch_to_cond_op ctx f c1 fc heq1
    · exact compile_branches_ops r c1 c2 rcs heq2
  · intro ctx b ctx1 lv ctx2 rv tr ctx3 resv tres h1 h2 h3
    rcases b with ⟨cl, cnd, cr, v⟩
    unfold branch_to_cond
    rw [show (Branch.mk cl cnd cr v).cond_left = cl from rfl] at h1
    rw [show (Branch.mk cl cnd cr v).cond_right = cr from rfl] at h2
    rw [show (Branch.mk cl cnd cr v).val = v from rfl] at h3
    rw [h1]
    dsimp only
    rw [h2]
    dsimp only
    rw [h3]
    rfl
  · intro ctx b ctx1 lv t h1 ht
    rcases b with ⟨cl, cnd, cr, v⟩
    unfold branch_to_cond
    rw [show (Branch.mk cl cnd cr v).cond_left = cl from rfl] at h1
    have hle : compile_expect ctx cl.1 cl ValType.Number
        = (ctx1, .err ⟨.TypeMismatch t ValType.Number, cl.1⟩) := by
      unfold compile_expect
      rw [h1]
      simp [check_type, ht]
    rw [hle]
    rfl
  · intro ctx sp f r d c1 fc c2 rcs c3 dl t h1 h2 h3 ht
    simp only [compile_expr]
    rw [h1]
    dsimp only
    rw [h2]
    dsimp only
    have hde : compile_expect c2 d.1 d ValType.Number
        = (c3, .err ⟨.TypeMismatch t ValType.Number, d.1⟩) := by
      unfold compile_expect
      rw [h3]
      simp [check_type, ht]
    rw [hde]

/-- Witness for C7 at concrete piecewise inputs: a one-branch piecewise
compiles with its comparator preserved and type Number; a branch with
Number-typed parts produces its Cond; a branch whose left operand is a List
fails at the left operand's span 33; a List default fails at the default's
span 39. -/
theorem c7_piecewise_witness :
    (ValType.Number = ValType.Number ∧ ∃ fc rcs dl,
      (Latex.Piecewise
          (Cond.mk (Latex.Num "1") CompareOperator.Equal (Latex.Num "2") (Latex.Num "3"))
          [] (Latex.Num "4") : Latex) = .Piecewise fc rcs dl ∧
      fc.op = CompareOperator.Equal ∧
      rcs.map Cond.op = ([] : List Branch).map Branch.cond) ∧
    branch_to_cond Context.new
        (Branch.mk (30, Expression.Num "1") CompareOperator.LessThan
          (31, Expression.Num "2") (32, Expression.Num "3"))
      = (Context.new, .ok (Cond.mk (Latex.Num "1") CompareOperator.LessThan
          (Latex.Num "2") (Latex.Num "3"))) ∧
    branch_to_cond Context.new
        (Branch.mk (33, Expression.List []) CompareOperator.Equal
          (34, Expression.Num "1") (35, Expression.Num "2"))
      = (Context.new, .err ⟨.TypeMismatch ValType.List ValType.Number, 33⟩) ∧
    compile_expr Context.new
        (40, Expression.Piecewise
          (Branch.mk (36, Expression.Num "1") CompareOperator.GreaterThan
            (37, Expression.Num "2") (38, Expression.Num "3"))
          [] (39, Expression.List []))
      = (Context.new, .err ⟨.TypeMismatch ValType.List ValType.Number, 39⟩) :=
  ⟨c7_piecewise.1 Context.new 29
      (Branch.mk (25, Expression.Num "1") CompareOperator.Equal
        (26, Expression.Num "2") (27, Expression.Num "3"))
      [] (28, Expression.Num "4") Context.new
      (Latex.Piecewise
        (Cond.mk (Latex.Num "1") CompareOperator.Equal (Latex.Num "2") (Latex.Num "3"))
        [] (Latex.Num "4")) ValType.Number
      (by simp [compile_expr, compile_expect, compile_branches, branch_to_cond,
        check_type]),
   c7_piecewise.2.1 Context.new
      (Branch.mk (30, Expression.Num "1") CompareOperator.LessThan
        (31, Expression.Num "2") (32, Expression.Num "3"))
      Context.new (Latex.Num "1") Context.new (Latex.Num "2") ValType.Number
      Context.new (Latex.Num "3") ValType.Number
      (by simp [compile_expect, compile_expr, check_type, Branch.cond_left])
      (by simp [compile_expr, Branch.cond_right])
      (by simp [compile_expr, Branch.val]),
   c7_piecewise.2.2.1 Context.new
      (Branch.mk (33, Expression.List []) CompareOperator.Equal
        (34, Expression.Num "1") (35, Expression.Num "2"))
      Context.new (Latex.List []) ValType.List
      (by simp [compile_expr, compile_list_items, Branch.cond_left]) (by decide),
   c7_piecewise.2.2.2 Context.new 40
      (Branch.mk (36, Expression.Num "1") CompareOperator.GreaterThan
        (37, Expression.Num "2") (38, Expression.Num "3"))
      [] (39, Expression.List []) Context.new
      (Cond.mk (Latex.Num "1") CompareOperator.GreaterThan (Latex.Num "2") (Latex.Num "3"))
      Context.new [] Context.new (Latex.List []) ValType.List
      (by simp [branch_to_cond, compile_expect, compile_expr, check_type])
      (by simp [compile_branches])
      (by simp [compile_expr, compile_list_items]) (by decide)⟩

/-- C8: the macro dispatcher rejects every name except map with
UndefinedMacro(name) at the macro span; the map macro with fewer than two
arguments fails BadMapMacro at the macro span; and a first argument that is
not syntactically a bare variable reference fails ExpectedFunction at that
argument's own span, for every context alike — the identifier is never
resolved against the variable table. -/
theorem c8_macro_validation :
    (∀ (ctx : Context) (sp : Span) (name : String)
       (margs : List LocatedExpression),
      name ≠ "map" →
      handle_macro_dispatch ctx sp name margs
        = (ctx, .err ⟨.UndefinedMacro name, sp⟩)) ∧
    (∀ (ctx : Context) (sp : Span) (margs : List LocatedExpression),
      margs.length < 2 →
      handle_map_macro_expand ctx sp margs = (ctx, .err ⟨.BadMapMacro, sp⟩)) ∧
    (∀ (ctx : Context) (sp fspan : Span) (fexpr : Expression)
       (rest : List LocatedExpression),
      ¬ ((fspan, fexpr) :: rest).length < 2 →
      (∀ v, fexpr ≠ Expression.Variable v) →
      handle_map_macro_expand ctx sp ((fspan, fexpr) :: rest)
        = (ctx, .err ⟨.ExpectedFunction, fspan⟩)) := by
  refine ⟨?_, ?_, ?_⟩
  · intro ctx sp name margs h
    unfold handle_macro_dispatch
    split
    · exact absurd rfl h
    · rfl
  · intro ctx sp margs h
    unfold handle_map_macro_expand
    rw [if_pos h]
  · intro ctx sp fspan fexpr rest h1 h2
    unfold handle_map_macro_expand
    rw [if_neg h1]
    cases fexpr
    case Variable v => exact absurd rfl (h2 v)
    all_goals rfl

/-- Witness for C8: a macro named sum is undefined; map with a single
argument fails BadMapMacro; map whose first argument is the literal 5 fails
ExpectedFunction at the first argument's span 8. -/
theorem c8_macro_validation_witness :
    handle_macro_dispatch Context.new 4 "sum" []
      = (Context.new, .err ⟨.UndefinedMacro "sum", 4⟩) ∧
    handle_map_macro_expand Context.new 5 [(6, Expression.Variable "f")]
      = (Context.new, .err ⟨.BadMapMacro, 5⟩) ∧
    handle_map_macro_expand Context.new 7
        [(8, Expression.Num "5"), (9, Expression.Variable "x")]
      = (Context.new, .err ⟨.ExpectedFunction, 8⟩) :=
  ⟨c8_macro_validation.1 Context.new 4 "sum" [] (by decide),
   c8_macro_validation.2.1 Context.new 5 [(6, Expression.Variable "f")] (by simp),
   c8_macro_validation.2.2 Context.new 7 8 (Expression.Num "5")
     [(9, Expression.Variable "x")] (by simp) (by intro v; simp)⟩

/-- C9: a binary mod expression whose two operands compile and check as
Number produces a Call output node named exactly mod with the builtin flag
set and the compiled operands in left-right order, typed Number — never a
native binary output operator. -/
theorem c9_mod_lowering (ctx : Context) (span : Span)
    (left right : LocatedExpression) (ctx1 ctx2 : Context) (lv rv : Latex)
    (hl : compile_expect ctx span left ValType.Number = (ctx1, .ok lv))
    (hr : compile_expect ctx1 span right ValType.Number = (ctx2, .ok rv)) :
    compile_expr ctx (span, Expression.BinaryExpr left BinaryOperator.Mod right)
      = (ctx2, .ok (.Call "mod" true [lv, rv], ValType.Number)) := by
  simp only [compile_expr]
  rw [hl]
  dsimp only
  rw [hr]

/-- Witness for C9: 1 mod 2 lowers to the builtin two-argument call named
mod. -/
theorem c9_mod_lowering_witness :
    compile_expr Context.new
        (1, Expression.BinaryExpr (2, Expression.Num "1") BinaryOperator.Mod
          (3, Expression.Num "2"))
      = (Context.new,
         .ok (.Call "mod" true [Latex.Num "1", Latex.Num "2"], ValType.Number)) :=
  c9_mod_lowering Context.new 1 (2, Expression.Num "1") (3, Expression.Num "2")
    Context.new Context.new (Latex.Num "1") (Latex.Num "2")
    (by simp [compile_expect, compile_expr, check_type])
    (by simp [compile_expect, compile_expr, check_type])

/-- C10: compile_expr, compile_call and the macro expander return the
context exactly as received — variables, locals, defined_functions and the
macro-mode flag — on success and on error alike (the expander restores the
saved flag even when the inner compile_call fails), and compile_stmt on a
bare expression does the same, so only a function-definition statement
mutates the context. -/
theorem c10_expr_compilation_preserves_context :
    (∀ ctx e, (compile_expr ctx e).1 = ctx) ∧
    (∀ ctx span fname cargs, (compile_call ctx span fname cargs).1 = ctx) ∧
    (∀ ctx span name margs, (handle_macro_dispatch ctx span name margs).1 = ctx) ∧
    (∀ ctx s e, (compile_stmt ctx (s, Statement.Expression e)).1 = ctx) :=
  ⟨compile_expr_fst, compile_call_fst, handle_macro_dispatch_fst,
   compile_stmt_expression_fst⟩

end Desmos
